import Mathlib

/-!
# Verification of the smithy-rs client orchestration engine

Shallow embedding of the request-orchestration core:
* `InterceptorContext` and its phase transitions, checkpointing, `rewind` and
  `fail` (from `rust-runtime/aws-smithy-runtime-api/src/client/interceptors/context.rs`);
* the orchestrator pipeline `invoke_with_stop_point` / `try_op` / `try_attempt`
  with the halt-on-error and continue-on-error interceptor dispatch policies,
  the retry/rewind loop and the attempt-level timeout
  (from `rust-runtime/aws-smithy-runtime/src/client/orchestrator.rs`).

Machine integers do not occur on the verified paths; type-erased payloads
(`TypeErasedBox`) are represented by `String`.  Asynchronous execution is
sequentialized: one operation runs on a single logical task (spec section 5),
so the orchestration is a deterministic function of the collaborator
behaviours, which are passed in as an explicit environment (`Env`).  The
functions append events to a trace so that temporal claims (which hooks ran,
in what order, how many transport calls happened) become statements about the
computed trace.
-/

deriving instance DecidableEq for Except

namespace SmithyRs

/-- The request body.  `retryable` mirrors `SdkBody::try_clone` succeeding:
a body is cloneable iff it is retryable, and a clone of a retryable body is
itself retryable (the clone carries the same bytes). -/
structure SdkBody where
  data : String
  retryable : Bool
deriving DecidableEq

/-- `SdkBody::try_clone`: succeeds exactly on retryable bodies and returns a
body with the same content. -/
def SdkBody.try_clone (b : SdkBody) : Option SdkBody :=
  if b.retryable then some b else none

/-- An HTTP request: method, target URI, headers and body
(the parts `try_clone` copies, per `try_clone_clones_all_data`). -/
structure HttpRequest where
  method : String
  uri : String
  headers : List (String × String)
  body : SdkBody
deriving DecidableEq

/-- An HTTP response; only its presence and identity matter to the claims. -/
structure HttpResponse where
  status : Nat
deriving DecidableEq

/-- `try_clone` from `context.rs`: clones the body (fallible), then rebuilds a
request with the same URI, method and headers. -/
def try_clone (request : HttpRequest) : Option HttpRequest :=
  match request.body.try_clone with
  | none => none
  | some cloned_body =>
    some { method := request.method, uri := request.uri,
           headers := request.headers, body := cloned_body }

/-- Modelled from the spec: the `phase` module of the interceptor context is
not among the provided sources; the spec (section 3) lists the ordered closed
set of states, and `context.rs` uses the predicates `is_before_serialization`,
`is_serialization`, and so on, one per state. -/
inductive Phase where
  | beforeSerialization
  | serialization
  | beforeTransmit
  | transmit
  | beforeDeserialization
  | deserialization
  | afterDeserialization
deriving DecidableEq

/-- `RewindResult` from `context.rs`. -/
inductive RewindResult where
  | impossible
  | unnecessary
  | occurred
deriving DecidableEq

/-- `OrchestratorError` (API crate): the error taxonomy the orchestrator
threads through the context.  `timeout` is the distinguished attempt/operation
timeout error; `connector` wraps a typed transport error. -/
inductive OrchestratorError (E : Type) where
  | interceptor (message : String)
  | operation (error : E)
  | connector (message : String)
  | response (message : String)
  | timeout (message : String)
  | other (message : String)
deriving DecidableEq

/-- `InterceptorContext` from `context.rs`: the per-invocation mutable state
container. -/
structure InterceptorContext (I O E : Type) where
  input : Option I
  output_or_error : Option (Except (OrchestratorError E) O)
  request : Option HttpRequest
  response : Option HttpResponse
  phase : Phase
  tainted : Bool
  request_checkpoint : Option HttpRequest

namespace InterceptorContext

variable {I O E : Type}

/-- `InterceptorContext::new`: fresh context in the before-serialization
phase, holding the operation input. -/
def new (input : I) : InterceptorContext I O E :=
  { input := some input
    output_or_error := none
    request := none
    response := none
    phase := .beforeSerialization
    tainted := false
    request_checkpoint := none }

/-- `take_input`: takes ownership of the input. -/
def take_input (ctx : InterceptorContext I O E) :
    Option I × InterceptorContext I O E :=
  (ctx.input, { ctx with input := none })

/-- `set_request`. -/
def set_request (ctx : InterceptorContext I O E) (request : HttpRequest) :
    InterceptorContext I O E :=
  { ctx with request := some request }

/-- `take_request`: takes ownership of the request. -/
def take_request (ctx : InterceptorContext I O E) :
    Option HttpRequest × InterceptorContext I O E :=
  (ctx.request, { ctx with request := none })

/-- `set_response`. -/
def set_response (ctx : InterceptorContext I O E) (response : HttpResponse) :
    InterceptorContext I O E :=
  { ctx with response := some response }

/-- `set_output_or_error`. -/
def set_output_or_error (ctx : InterceptorContext I O E)
    (output : Except (OrchestratorError E) O) : InterceptorContext I O E :=
  { ctx with output_or_error := some output }

/-- `is_failed`: true iff `output_or_error` holds an error. -/
def is_failed (ctx : InterceptorContext I O E) : Bool :=
  match ctx.output_or_error with
  | some (.error _) => true
  | _ => false

/-- `fail`: unconditionally replaces `output_or_error` with the given error
(`mem::replace` in the source). -/
def fail (ctx : InterceptorContext I O E) (error : OrchestratorError E) :
    InterceptorContext I O E :=
  { ctx with output_or_error := some (.error error) }

/-- The condition under which `fail` emits its discard diagnostic: the value
being replaced was already an error (`if let Some(Err(existing_err)) = ...`). -/
def fail_discards_error (ctx : InterceptorContext I O E) : Bool :=
  match ctx.output_or_error with
  | some (.error _) => true
  | _ => false

/-- `enter_serialization_phase`, with the debug assertions stripped
(their checked form is `enter_serialization_phase_checked`). -/
def enter_serialization_phase (ctx : InterceptorContext I O E) :
    InterceptorContext I O E :=
  { ctx with phase := .serialization }

/-- `enter_before_transmit_phase` with assertions stripped.  Note that this
transition also writes `request_checkpoint` (a clone of the just-serialized
request), line 217 of `context.rs`. -/
def enter_before_transmit_phase (ctx : InterceptorContext I O E) :
    InterceptorContext I O E :=
  { ctx with request_checkpoint := ctx.request.bind try_clone
             phase := .beforeTransmit }

/-- `enter_transmit_phase` with assertions stripped. -/
def enter_transmit_phase (ctx : InterceptorContext I O E) :
    InterceptorContext I O E :=
  { ctx with phase := .transmit }

/-- `enter_before_deserialization_phase` with assertions stripped. -/
def enter_before_deserialization_phase (ctx : InterceptorContext I O E) :
    InterceptorContext I O E :=
  { ctx with phase := .beforeDeserialization }

/-- `enter_deserialization_phase` with assertions stripped. -/
def enter_deserialization_phase (ctx : InterceptorContext I O E) :
    InterceptorContext I O E :=
  { ctx with phase := .deserialization }

/-- `enter_after_deserialization_phase` with assertions stripped. -/
def enter_after_deserialization_phase (ctx : InterceptorContext I O E) :
    InterceptorContext I O E :=
  { ctx with phase := .afterDeserialization }

/-- `enter_serialization_phase` including its `debug_assert` precondition:
the phase must be before-serialization.  `none` models the assertion firing. -/
def enter_serialization_phase_checked (ctx : InterceptorContext I O E) :
    Option (InterceptorContext I O E) :=
  if ctx.phase = .beforeSerialization then some ctx.enter_serialization_phase
  else none

/-- `enter_before_transmit_phase` including its `debug_assert` preconditions:
phase is serialization, input already taken, request already set. -/
def enter_before_transmit_phase_checked (ctx : InterceptorContext I O E) :
    Option (InterceptorContext I O E) :=
  if ctx.phase = .serialization ∧ ctx.input.isNone = true ∧
      ctx.request.isSome = true then
    some ctx.enter_before_transmit_phase
  else none

/-- `enter_transmit_phase` including its `debug_assert` precondition. -/
def enter_transmit_phase_checked (ctx : InterceptorContext I O E) :
    Option (InterceptorContext I O E) :=
  if ctx.phase = .beforeTransmit then some ctx.enter_transmit_phase
  else none

/-- `enter_before_deserialization_phase` including its `debug_assert`
preconditions: phase is transmit, request taken, response set. -/
def enter_before_deserialization_phase_checked
    (ctx : InterceptorContext I O E) : Option (InterceptorContext I O E) :=
  if ctx.phase = .transmit ∧ ctx.request.isNone = true ∧
      ctx.response.isSome = true then
    some ctx.enter_before_deserialization_phase
  else none

/-- `enter_deserialization_phase` including its `debug_assert` precondition. -/
def enter_deserialization_phase_checked (ctx : InterceptorContext I O E) :
    Option (InterceptorContext I O E) :=
  if ctx.phase = .beforeDeserialization then
    some ctx.enter_deserialization_phase
  else none

/-- `enter_after_deserialization_phase` including its `debug_assert`
preconditions: phase is deserialization and the output is set. -/
def enter_after_deserialization_phase_checked (ctx : InterceptorContext I O E) :
    Option (InterceptorContext I O E) :=
  if ctx.phase = .deserialization ∧ ctx.output_or_error.isSome = true then
    some ctx.enter_after_deserialization_phase
  else none

/-- `save_checkpoint`: stores a clone of the current request
(`self.request().and_then(try_clone)`). -/
def save_checkpoint (ctx : InterceptorContext I O E) :
    InterceptorContext I O E :=
  { ctx with request_checkpoint := ctx.request.bind try_clone }

/-- `rewind` from `context.rs`.  The result `none` models the `assert!` firing
in the occurred branch when the stored checkpoint could not be cloned (the
source aborts there); every branch the orchestrator reaches yields `some`. -/
def rewind (ctx : InterceptorContext I O E) :
    Option (RewindResult × InterceptorContext I O E) :=
  if ctx.request_checkpoint.isNone && ctx.tainted then
    some (.impossible, ctx)
  else if !ctx.tainted then
    some (.unnecessary, { ctx with tainted := true })
  else
    match ctx.request_checkpoint with
    | some checkpoint =>
      match try_clone checkpoint with
      | some request =>
        some (.occurred,
          { ctx with phase := .beforeTransmit
                     request := some request
                     response := none
                     output_or_error := none })
      | none => none
    | none => none

end InterceptorContext

/-! ## The orchestrator (`orchestrator.rs`)

The orchestrator is modelled as a deterministic function of an environment
`Env` describing the pluggable collaborators (interceptor hook results, the
serializer, endpoint resolver, signer, connector, deserializer, retry
strategy, and the attempt-level timeout).  Payload types are concretized:
input, output and operation-error are all `String`. -/

/-- The concrete context type the orchestrator works with
(`InterceptorContext<Input, Output, Error>` with the type-erased payloads
represented by `String`). -/
abbrev Ctx := InterceptorContext String String String

/-- Extracts the error recorded in a context, if any. -/
def ctxError (ctx : Ctx) : Option (OrchestratorError String) :=
  match ctx.output_or_error with
  | some (.error e) => some e
  | _ => none

/-- The interceptor hook points, in main-pipeline order followed by the two
finalizer groups (attempt-level, then operation-level). -/
inductive Hook where
  | readBeforeExecution
  | readBeforeSerialization
  | modifyBeforeSerialization
  | readAfterSerialization
  | modifyBeforeRetryLoop
  | readBeforeAttempt
  | modifyBeforeSigning
  | readBeforeSigning
  | readAfterSigning
  | modifyBeforeTransmit
  | readBeforeTransmit
  | readAfterTransmit
  | modifyBeforeDeserialization
  | readBeforeDeserialization
  | readAfterDeserialization
  | modifyBeforeAttemptCompletion
  | readAfterAttempt
  | modifyBeforeCompletion
  | readAfterExecution
deriving DecidableEq

/-- `ShouldAttempt` from the retries API: a retry-strategy answer. -/
inductive ShouldAttempt where
  | yes
  | no
  | yesAfterDelay (delay : Nat)
deriving DecidableEq

/-- `StopPoint` from `orchestrator.rs`. -/
inductive StopPoint where
  | none
  | beforeTransmit
deriving DecidableEq

/-- The two places that write `request_checkpoint` during orchestration. -/
inductive CheckpointWriter where
  | enterBeforeTransmit
  | saveCheckpoint
deriving DecidableEq

/-- Observable events of one orchestration run, in order of occurrence.
`interceptorRan h k` records that the interceptor at position `k` of the
merged registration order ran at hook point `h`; `retryConsulted i err`
records a `should_attempt_retry` call after attempt `i` together with the
error the context carried at that moment (`none` when the context was not
failed). -/
inductive Event where
  | interceptorRan (h : Hook) (k : Nat)
  | serialized
  | checkpointWritten (w : CheckpointWriter)
  | rewound (r : RewindResult)
  | attemptRecorded (i : Nat)
  | endpointResolved (i : Nat)
  | authCompleted (i : Nat)
  | transportCall (i : Nat)
  | deserialized (i : Nat)
  | attemptTimedOut (i : Nat)
  | retryConsulted (i : Nat) (err : Option (OrchestratorError String))
deriving DecidableEq

/-- The collaborator behaviours one orchestration run observes.
`hookResults h i` lists, in merged registration order (client-scope
interceptors before operation-scope, spec section 4.2), the result of each
registered interceptor at hook point `h` during attempt `i` (attempt `0`
stands for the hooks outside the attempt loop).  `retryDecision` receives the
context exactly as `should_attempt_retry(ctx, ..)` does. -/
structure Env where
  hookResults : Hook → Nat → List (Except String Unit)
  serializeResult : Except String HttpRequest
  initialDecision : Except String ShouldAttempt
  endpointResult : Nat → Except String Unit
  authResult : Nat → Except String Unit
  connectorResult : Nat → Except String HttpResponse
  deserializeResult : Nat → Except (OrchestratorError String) String
  attemptTimesOut : Nat → Bool
  retryDecision : Nat → Ctx → Except String ShouldAttempt

/-- The orchestration state threaded through the pipeline: the interceptor
context, the `RequestAttempts` value stored in the config bag, and the event
trace. -/
structure OrchState where
  ctx : Ctx
  requestAttempts : Option Nat
  trace : List Event

/-- Modelled from the spec: the per-hook dispatcher (`Interceptors::<hook>`)
is outside the provided sources.  Where the spec and the repository disagree,
the in-repo tests of `orchestrator.rs` are authoritative
(`interceptor_error_handling_test`): the dispatcher invokes every registered
interceptor at the hook point in order; a failure does not stop the remaining
interceptors at that point, and a later failure replaces an earlier one (the
tests assert that all of `FailingInterceptorA`, `B` and `C` run and that the
surfaced error names `C`, the last). -/
def dispatch_hook (results : List (Except String Unit)) : Except String Unit :=
  results.foldl
    (fun acc r =>
      match r with
      | .ok _ => acc
      | .error e => .error e)
    (.ok ())

/-- Runs one hook point and appends one `interceptorRan` event per registered
interceptor (the dispatcher runs them all). -/
def emitHookEvents (h : Hook) (n : Nat) (s : OrchState) : OrchState :=
  { s with trace := s.trace ++ (List.range n).map (Event.interceptorRan h) }

/-- `run_interceptors!(halt_on_err: hook(..))`: dispatch the hook point; on
failure mark the context failed with the (wrapped) interceptor error and set
the halt flag, which makes the enclosing pipeline return early. -/
def runHookHalt (env : Env) (h : Hook) (i : Nat) (s : OrchState) :
    OrchState × Bool :=
  let results := env.hookResults h i
  let s := emitHookEvents h results.length s
  match dispatch_hook results with
  | .ok _ => (s, false)
  | .error e => ({ s with ctx := s.ctx.fail (.interceptor e) }, true)

/-- `run_interceptors!(continue_on_err: hook(..))`: dispatch the hook point;
on failure mark the context failed but keep going. -/
def runHookCont (env : Env) (h : Hook) (i : Nat) (s : OrchState) : OrchState :=
  let results := env.hookResults h i
  let s := emitHookEvents h results.length s
  match dispatch_hook results with
  | .ok _ => s
  | .error e => { s with ctx := s.ctx.fail (.interceptor e) }

/-- `try_attempt` from `orchestrator.rs`: one attempt of the pipeline, for
attempt number `i`.  Every `halt_on_err` failure marks the context failed and
returns early; the caller always runs `finally_attempt` afterwards. -/
def try_attempt (env : Env) (stop : StopPoint) (i : Nat) (s : OrchState) :
    OrchState :=
  let (s, halted) := runHookHalt env .readBeforeAttempt i s
  if halted then s else
  match env.endpointResult i with
  | .error e => { s with ctx := s.ctx.fail (.other e) }
  | .ok _ =>
  let s := { s with trace := s.trace ++ [Event.endpointResolved i] }
  let (s, halted) := runHookHalt env .modifyBeforeSigning i s
  if halted then s else
  let (s, halted) := runHookHalt env .readBeforeSigning i s
  if halted then s else
  match env.authResult i with
  | .error e => { s with ctx := s.ctx.fail (.other e) }
  | .ok _ =>
  let s := { s with trace := s.trace ++ [Event.authCompleted i] }
  let (s, halted) := runHookHalt env .readAfterSigning i s
  if halted then s else
  let (s, halted) := runHookHalt env .modifyBeforeTransmit i s
  if halted then s else
  let (s, halted) := runHookHalt env .readBeforeTransmit i s
  if halted then s else
  -- Return early if a stop point is set for before transmit.
  match stop with
  | .beforeTransmit => s
  | .none =>
  let s := { s with ctx := s.ctx.enter_transmit_phase }
  let s := { s with ctx := (s.ctx.take_request).2 }
  -- the transport call happens regardless of its outcome
  let s := { s with trace := s.trace ++ [Event.transportCall i] }
  match env.connectorResult i with
  | .error e => { s with ctx := s.ctx.fail (.connector e) }
  | .ok response =>
  let s := { s with ctx := (s.ctx.set_response response).enter_before_deserialization_phase }
  let (s, halted) := runHookHalt env .readAfterTransmit i s
  if halted then s else
  let (s, halted) := runHookHalt env .modifyBeforeDeserialization i s
  if halted then s else
  let (s, halted) := runHookHalt env .readBeforeDeserialization i s
  if halted then s else
  let s := { s with ctx := s.ctx.enter_deserialization_phase }
  -- the deserializer result goes into output_or_error without halting
  let s := { s with ctx := s.ctx.set_output_or_error (env.deserializeResult i)
                    trace := s.trace ++ [Event.deserialized i] }
  let s := { s with ctx := s.ctx.enter_after_deserialization_phase }
  let (s, _) := runHookHalt env .readAfterDeserialization i s
  s

/-- `finally_attempt`: the attempt-level finalizer group, dispatched with the
continue-on-error policy. -/
def finally_attempt (env : Env) (i : Nat) (s : OrchState) : OrchState :=
  let s := runHookCont env .modifyBeforeAttemptCompletion i s
  runHookCont env .readAfterAttempt i s

/-- The `for i in 1u32..` retry loop of `try_op`.  `fuel` bounds the number of
iterations (the claims only need small concrete runs).  Each iteration:
rewind (break on `Impossible`), record the attempt number into shared state,
run the attempt plus its finalizer under the attempt-level timeout, then ask
the retry strategy whether to continue.  A firing timeout cancels the attempt
body and is recorded on the context as the distinguished timeout error via the
`continue_on_err!` path, so the retry consultation still happens.  Backoff
sleeps are unobservable here and a sleep implementation is assumed present. -/
def attempt_loop (env : Env) (stop : StopPoint) :
    Nat → Nat → OrchState → OrchState
  | 0, _, s => s
  | fuel + 1, i, s =>
    match s.ctx.rewind with
    | Option.none => s
    | some (r, ctx) =>
      let s := { s with ctx := ctx, trace := s.trace ++ [Event.rewound r] }
      match r with
      | .impossible => s
      | _ =>
        let s := { s with requestAttempts := some i
                          trace := s.trace ++ [Event.attemptRecorded i] }
        let s :=
          if env.attemptTimesOut i then
            { s with trace := s.trace ++ [Event.attemptTimedOut i]
                     ctx := s.ctx.fail (.timeout "operation attempt timeout") }
          else
            let s := try_attempt env stop i s
            finally_attempt env i s
        let s := { s with trace := s.trace ++ [Event.retryConsulted i (ctxError s.ctx)] }
        match env.retryDecision i s.ctx with
        | .error e => { s with ctx := s.ctx.fail (.other e) }
        | .ok .no => s
        | .ok _ => attempt_loop env stop fuel (i + 1) s

/-- `try_op` from `orchestrator.rs`: the main pipeline up to and including the
retry loop.  (The optional `LoadedRequestBody` buffering step is not modelled;
no claim depends on it.) -/
def try_op (env : Env) (stop : StopPoint) (fuel : Nat) (s : OrchState) :
    OrchState :=
  let (s, halted) := runHookHalt env .readBeforeSerialization 0 s
  if halted then s else
  let (s, halted) := runHookHalt env .modifyBeforeSerialization 0 s
  if halted then s else
  let s := { s with ctx := s.ctx.enter_serialization_phase }
  let s := { s with ctx := (s.ctx.take_input).2 }
  match env.serializeResult with
  | .error e => { s with ctx := s.ctx.fail (.other e) }
  | .ok request =>
  let s := { s with ctx := s.ctx.set_request request
                    trace := s.trace ++ [Event.serialized] }
  let s := { s with ctx := s.ctx.enter_before_transmit_phase
                    trace := s.trace ++ [Event.checkpointWritten .enterBeforeTransmit] }
  let (s, halted) := runHookHalt env .readAfterSerialization 0 s
  if halted then s else
  let (s, halted) := runHookHalt env .modifyBeforeRetryLoop 0 s
  if halted then s else
  match env.initialDecision with
  | .ok .no =>
    { s with ctx := s.ctx.fail (.other "initial request refused without a reason") }
  | .error e => { s with ctx := s.ctx.fail (.other e) }
  | .ok _ =>
  -- yes, or yes after a delay (the sleep is unobservable here)
  let s := { s with ctx := s.ctx.save_checkpoint
                    trace := s.trace ++ [Event.checkpointWritten .saveCheckpoint] }
  attempt_loop env stop fuel 1 s

/-- `apply_configuration`: applies the runtime plugins and dispatches
`read_before_execution` (client scope before operation scope, merged here into
one ordered list) with the continue-on-error policy. -/
def apply_configuration (env : Env) (s : OrchState) : OrchState :=
  runHookCont env .readBeforeExecution 0 s

/-- `finally_op`: the operation-level finalizer group, dispatched with the
continue-on-error policy. -/
def finally_op (env : Env) (s : OrchState) : OrchState :=
  let s := runHookCont env .modifyBeforeCompletion 0 s
  runHookCont env .readAfterExecution 0 s

/-- `invoke_with_stop_point`: builds the fresh context, applies configuration
(running `read_before_execution`), skips `try_op` when those interceptors
already failed the context, and always runs `finally_op`.  The operation-level
timeout wrapper is a pass-through here (no claim exercises it). -/
def invoke_with_stop_point (env : Env) (stop : StopPoint) (fuel : Nat)
    (input : String) : OrchState :=
  let s : OrchState :=
    { ctx := InterceptorContext.new input, requestAttempts := none, trace := [] }
  let s := apply_configuration env s
  let s := if s.ctx.is_failed then s else try_op env stop fuel s
  finally_op env s

/-! ## Trace observations and concrete scenarios -/

/-- Number of occurrences of an event in a trace. -/
def countEvent (t : List Event) (e : Event) : Nat :=
  (t.filter (fun x => decide (x = e))).length

/-- Number of dispatches of hook point `h` visible in a trace: every dispatch
of a hook point with at least one registered interceptor emits
`interceptorRan h 0` exactly once. -/
def hookRunCount (t : List Event) (h : Hook) : Nat :=
  countEvent t (.interceptorRan h 0)

/-- The attempt numbers recorded into shared state, in order. -/
def attemptsRecorded (t : List Event) : List Nat :=
  t.filterMap (fun e =>
    match e with
    | .attemptRecorded i => some i
    | _ => none)

/-- Number of transport calls in a trace. -/
def transportCalls (t : List Event) : Nat :=
  (t.filter (fun e =>
    match e with
    | .transportCall _ => true
    | _ => false)).length

/-- Number of `rewind` calls (loop iterations started) in a trace. -/
def rewindCalls (t : List Event) : Nat :=
  (t.filter (fun e =>
    match e with
    | .rewound _ => true
    | _ => false)).length

/-- The writes to `request_checkpoint` in a trace, in order. -/
def checkpointWrites (t : List Event) : List CheckpointWriter :=
  t.filterMap (fun e =>
    match e with
    | .checkpointWritten w => some w
    | _ => none)

/-- Index of the first occurrence of an event in a trace. -/
def eventIndex (t : List Event) (e : Event) : Nat :=
  t.findIdx (fun x => decide (x = e))

/-- The main-pipeline hook points, in pipeline order: every hook up through
read-after-deserialization (spec section 4.2). -/
def mainPipelineHooks : List Hook :=
  [.readBeforeExecution, .readBeforeSerialization, .modifyBeforeSerialization,
   .readAfterSerialization, .modifyBeforeRetryLoop,
   .readBeforeAttempt, .modifyBeforeSigning, .readBeforeSigning,
   .readAfterSigning, .modifyBeforeTransmit, .readBeforeTransmit,
   .readAfterTransmit, .modifyBeforeDeserialization,
   .readBeforeDeserialization, .readAfterDeserialization]

/-- The operation-scope hooks that run before any attempt starts:
read-before-execution through modify-before-retry-loop. -/
def preAttemptHooks : List Hook :=
  [.readBeforeExecution, .readBeforeSerialization, .modifyBeforeSerialization,
   .readAfterSerialization, .modifyBeforeRetryLoop]

/-- The main-pipeline hook points strictly after `h` in pipeline order. -/
def laterMainHooks (h : Hook) : List Hook :=
  (mainPipelineHooks.dropWhile (fun x => !(decide (x = h)))).drop 1

/-- A retryable sample request. -/
def req0 : HttpRequest :=
  { method := "POST", uri := "/op", headers := [("k", "v")],
    body := { data := "b", retryable := true } }

/-- A sample response. -/
def resp0 : HttpResponse := { status := 200 }

/-- The all-success environment: one succeeding interceptor at every hook
point, a successful transport, and the never-retry strategy
(`NeverRetryStrategy` of the orchestrator tests). -/
def okEnv : Env :=
  { hookResults := fun _ _ => [Except.ok ()]
    serializeResult := .ok req0
    initialDecision := .ok .yes
    endpointResult := fun _ => .ok ()
    authResult := fun _ => .ok ()
    connectorResult := fun _ => .ok resp0
    deserializeResult := fun _ => .ok "output"
    attemptTimesOut := fun _ => false
    retryDecision := fun _ _ => .ok .no }

/-- Three interceptors at hook point `h`, all failing (as in the repository
test `interceptor_error_handling_test`: `FailingInterceptorA` in client scope,
`B` and `C` in operation scope); every other hook point succeeds. -/
def allFailEnv (h : Hook) : Env :=
  { okEnv with hookResults := fun h' _ =>
      if h' = h then [.error "A", .error "B", .error "C"] else [.ok ()] }

/-- Three interceptors at hook point `h` of which only the one at position `k`
fails; every other hook point succeeds. -/
def oneFailEnv (h : Hook) (k : Nat) : Env :=
  { okEnv with hookResults := fun h' _ =>
      if h' = h then
        (List.range 3).map (fun j => if j = k then Except.error "boom" else Except.ok ())
      else [.ok ()] }

/-- A single failing interceptor at hook point `h`. -/
def failHookEnv (h : Hook) : Env :=
  { okEnv with hookResults := fun h' _ =>
      if h' = h then [.error "x"] else [.ok ()] }

/-- The attempt-level timeout fires on attempt 1; never-retry strategy. -/
def timeoutNoRetryEnv : Env :=
  { okEnv with attemptTimesOut := fun i => decide (i = 1) }

/-- The attempt-level timeout fires on attempt 1, and the retry strategy
classifies a timed-out context as retryable (and everything else as final):
the strategy observes the context handed to `should_attempt_retry`. -/
def timeoutRetryEnv : Env :=
  { okEnv with
    attemptTimesOut := fun i => decide (i = 1)
    retryDecision := fun _ ctx =>
      match ctxError ctx with
      | some (.timeout _) => .ok .yes
      | _ => .ok .no }

/-- The transport always fails with a generic connector error. -/
def transportErrEnv : Env :=
  { okEnv with connectorResult := fun _ => .error "down" }

/-- A parametric transport outcome; everything else succeeds, never-retry. -/
def transportOutcomeEnv (r : Except String HttpResponse) : Env :=
  { okEnv with connectorResult := fun _ => r }

/-- The transport fails and then the modify-before-completion finalizer hook
also fails: the finalizer failure overwrites the transport error. -/
def finalizerOverwriteEnv : Env :=
  { okEnv with
    connectorResult := fun _ => .error "transport"
    hookResults := fun h _ =>
      if h = .modifyBeforeCompletion then [.error "finalizer"] else [.ok ()] }

/-- A transport outcome of each kind: success or a generic transport error. -/
def transportOutcome (ok : Bool) : Except String HttpResponse :=
  if ok then .ok resp0 else .error "down"

/-- A request differing from `req0` in headers and body content, standing for
the in-flight request after mutation by signing or a modifying interceptor. -/
def reqMut : HttpRequest :=
  { method := "POST", uri := "/op", headers := [("k", "w")],
    body := { data := "b2", retryable := true } }

/-- A tainted context mid-operation: the in-flight request has been mutated
away from the checkpoint, a response and an error are present. -/
def ctxTainted : Ctx :=
  { input := none
    output_or_error := some (.error (.connector "e"))
    request := some reqMut
    response := some resp0
    phase := .afterDeserialization
    tainted := true
    request_checkpoint := some req0 }

/-- The context `rewind` produces from `ctxTainted`. -/
def rewoundCtx0 : Ctx :=
  { ctxTainted with phase := .beforeTransmit, request := some req0,
                    response := none, output_or_error := none }

/-- A context in the serialization phase with the input taken but no request
set: the illegal configuration for entering before-transmit. -/
def noRequestCtx : Ctx :=
  { (InterceptorContext.new "in" : Ctx) with phase := .serialization,
                                             input := none }

/-- The legal phase trace (the one exercised by `test_success_transitions`),
taking every transition through its checked, assertion-including form. -/
def legal_phase_trace (input : String) (req : HttpRequest) (resp : HttpResponse)
    (out : Except (OrchestratorError String) String) : Option Ctx := do
  let c : Ctx := InterceptorContext.new input
  let c ← c.enter_serialization_phase_checked
  let c := (c.take_input).2
  let c := c.set_request req
  let c ← c.enter_before_transmit_phase_checked
  let c ← c.enter_transmit_phase_checked
  let c := (c.take_request).2
  let c := c.set_response resp
  let c ← c.enter_before_deserialization_phase_checked
  let c ← c.enter_deserialization_phase_checked
  let c := c.set_output_or_error out
  c.enter_after_deserialization_phase_checked

/-- The folding step of `dispatch_hook` ignores successes, so an all-success
suffix leaves the accumulated result unchanged. -/
theorem dispatch_foldl_all_ok (rs : List (Except String Unit))
    (acc : Except String Unit) (h : ∀ r ∈ rs, r = .ok ()) :
    rs.foldl
      (fun acc r =>
        match r with
        | .ok _ => acc
        | .error e => .error e) acc = acc := by
  induction rs generalizing acc with
  | nil => rfl
  | cons r rs ih =>
    have hr := h r (by simp)
    subst hr
    exact ih acc (fun r hm => h r (by simp [hm]))

/-- The behaviour the amended claim C2 asserts of one main-pipeline run in
which interceptor `k` of 3 at hook point `h` fails and everything else
succeeds. -/
abbrev c2Holds (h : Hook) (k : Nat) : Prop :=
  let s := invoke_with_stop_point (oneFailEnv h k) .none 3 "in"
  (∀ j ∈ [0, 1, 2], Event.interceptorRan h j ∈ s.trace) ∧
  ctxError s.ctx = some (.interceptor "boom") ∧
  (∀ h' ∈ laterMainHooks h, hookRunCount s.trace h' = 0) ∧
  (h ∈ preAttemptHooks →
    hookRunCount s.trace .modifyBeforeAttemptCompletion = 0 ∧
    hookRunCount s.trace .readAfterAttempt = 0) ∧
  (h ∉ preAttemptHooks →
    hookRunCount s.trace .modifyBeforeAttemptCompletion = 1 ∧
    hookRunCount s.trace .readAfterAttempt = 1) ∧
  hookRunCount s.trace .modifyBeforeCompletion = 1 ∧
  hookRunCount s.trace .readAfterExecution = 1

/-! ## Claims -/

set_option maxRecDepth 100000

/-- C1: On every context, the very first `rewind` call (tainted still false)
returns `Unnecessary` and only sets `tainted`; a later call with no stored
checkpoint returns `Impossible` and changes nothing; a later call with a
stored (cloneable) checkpoint returns `Occurred`, resets the phase to
before-transmit, replaces the request with a clone of the checkpoint — which
preserves the checkpoint method, URI and headers, independently of the
mutated in-flight request — and clears the response and the output. -/
theorem c1_rewind_contract (ctx : Ctx) :
    (ctx.tainted = false →
      ctx.rewind = some (.unnecessary, { ctx with tainted := true })) ∧
    (ctx.tainted = true → ctx.request_checkpoint = none →
      ctx.rewind = some (.impossible, ctx)) ∧
    (∀ c, ctx.tainted = true → ctx.request_checkpoint = some c →
      c.body.retryable = true →
      ctx.rewind = some (.occurred,
        { ctx with phase := .beforeTransmit, request := some c,
                   response := none, output_or_error := none })) ∧
    (∀ c r, try_clone c = some r →
      r.method = c.method ∧ r.uri = c.uri ∧ r.headers = c.headers) := by
  refine ⟨?_, ?_, ?_, ?_⟩
  · intro h
    simp [InterceptorContext.rewind, h]
  · intro h1 h2
    simp [InterceptorContext.rewind, h1, h2]
  · intro c h1 h2 h3
    simp [InterceptorContext.rewind, h1, h2, try_clone, SdkBody.try_clone, h3]
  · intro c r h
    unfold try_clone at h
    unfold SdkBody.try_clone at h
    by_cases hb : c.body.retryable <;> simp [hb] at h
    simp [← h]

/-- Witness for C1: the three rewind behaviours at concrete contexts. -/
theorem c1_rewind_contract_witness :
    ((InterceptorContext.new "in" : Ctx).rewind
      = some (.unnecessary, { (InterceptorContext.new "in" : Ctx) with tainted := true })) ∧
    (({ (InterceptorContext.new "in" : Ctx) with tainted := true }).rewind
      = some (.impossible, { (InterceptorContext.new "in" : Ctx) with tainted := true })) ∧
    (ctxTainted.rewind = some (.occurred, rewoundCtx0)) :=
  ⟨(c1_rewind_contract _).1 rfl,
   (c1_rewind_contract _).2.1 rfl rfl,
   (c1_rewind_contract ctxTainted).2.2.1 req0 rfl rfl rfl⟩

/-- C10: `rewind` never writes `request_checkpoint`; consequently, on a
tainted context with a stored (cloneable) checkpoint, `rewind` is idempotent:
a second consecutive call returns `Occurred` again and leaves the context in
the state the first call produced, with the request restored to the
checkpoint value regardless of how the in-flight request had been mutated. -/
theorem c10_rewind_idempotent (ctx : Ctx) :
    (∀ r ctx₂, ctx.rewind = some (r, ctx₂) →
      ctx₂.request_checkpoint = ctx.request_checkpoint) ∧
    (∀ c ctx₂, ctx.tainted = true → ctx.request_checkpoint = some c →
      c.body.retryable = true → ctx.rewind = some (.occurred, ctx₂) →
      ctx₂.rewind = some (.occurred, ctx₂) ∧ ctx₂.request = some c) := by
  constructor
  · intro r ctx₂ h
    rcases hb : ctx.tainted <;> rcases hc : ctx.request_checkpoint with _ | c
    · simp [InterceptorContext.rewind, hb, hc] at h
      simp [← h.2]
    · simp [InterceptorContext.rewind, hb, hc] at h
      simp [← h.2]
    · simp [InterceptorContext.rewind, hb, hc] at h
      simp [← h.2, hc]
    · rcases ht : try_clone c with _ | r₂
      · simp [InterceptorContext.rewind, hb, hc, ht] at h
      · simp [InterceptorContext.rewind, hb, hc, ht] at h
        simp [← h.2, hc]
  · intro c ctx₂ h1 h2 h3 h4
    have hclone : try_clone c = some c := by
      simp [try_clone, SdkBody.try_clone, h3]
    rw [InterceptorContext.rewind] at h4
    simp [h1, h2, hclone] at h4
    rw [← h4]
    simp [InterceptorContext.rewind, h1, h2, hclone]

/-- Witness for C10 at a concrete tainted context with a checkpoint. -/
theorem c10_rewind_idempotent_witness :
    (rewoundCtx0.request_checkpoint = ctxTainted.request_checkpoint) ∧
    (rewoundCtx0.rewind = some (.occurred, rewoundCtx0) ∧
      rewoundCtx0.request = some req0) :=
  ⟨(c10_rewind_idempotent ctxTainted).1 .occurred rewoundCtx0 rfl,
   (c10_rewind_idempotent ctxTainted).2 req0 rewoundCtx0 rfl rfl rfl rfl⟩

/-- C5: `fail` unconditionally sets `output_or_error` to the given error, so
a failed context stays failed until explicitly overwritten and a later `fail`
replaces the earlier error (last write wins); the overwrite diagnostic fires
exactly when the discarded value was an error; and a failing finalizer hook
overwrites the previously recorded error without stopping its sibling
finalizer hook (concrete run: the transport fails, then the
modify-before-completion hook fails — the finalizer error stands and
read-after-execution still runs). -/
theorem c5_fail_last_write_wins :
    (∀ (ctx : Ctx) (e : OrchestratorError String),
      (ctx.fail e).output_or_error = some (.error e)) ∧
    (∀ (ctx : Ctx) (e : OrchestratorError String),
      (ctx.fail e).is_failed = true) ∧
    (∀ (ctx : Ctx) (e₁ e₂ : OrchestratorError String),
      ((ctx.fail e₁).fail e₂).output_or_error = some (.error e₂)) ∧
    (∀ ctx : Ctx, ctx.fail_discards_error = ctx.is_failed) ∧
    ctxError (invoke_with_stop_point finalizerOverwriteEnv .none 3 "in").ctx
      = some (.interceptor "finalizer") ∧
    hookRunCount (invoke_with_stop_point finalizerOverwriteEnv .none 3 "in").trace
      .readAfterExecution = 1 := by
  refine ⟨fun _ _ => rfl, fun _ _ => rfl, fun _ _ _ => rfl, fun _ => rfl, ?_, ?_⟩
  · decide
  · decide

/-- C8: every `enter_<phase>` transition succeeds exactly when its
phase-appropriate precondition holds — in particular, entering
before-transmit requires the phase to be serialization, the input to be
already taken, and the request to be set; every transition of the legal phase
trace succeeds for all payloads; and the illegal ordering that enters
before-transmit without a request set is rejected. -/
theorem c8_enter_phase_preconditions :
    (∀ ctx : Ctx, ctx.enter_serialization_phase_checked.isSome = true ↔
      ctx.phase = .beforeSerialization) ∧
    (∀ ctx : Ctx, ctx.enter_before_transmit_phase_checked.isSome = true ↔
      (ctx.phase = .serialization ∧ ctx.input.isNone = true ∧
        ctx.request.isSome = true)) ∧
    (∀ ctx : Ctx, ctx.enter_transmit_phase_checked.isSome = true ↔
      ctx.phase = .beforeTransmit) ∧
    (∀ ctx : Ctx, ctx.enter_before_deserialization_phase_checked.isSome = true ↔
      (ctx.phase = .transmit ∧ ctx.request.isNone = true ∧
        ctx.response.isSome = true)) ∧
    (∀ ctx : Ctx, ctx.enter_deserialization_phase_checked.isSome = true ↔
      ctx.phase = .beforeDeserialization) ∧
    (∀ ctx : Ctx, ctx.enter_after_deserialization_phase_checked.isSome = true ↔
      (ctx.phase = .deserialization ∧ ctx.output_or_error.isSome = true)) ∧
    (∀ (input : String) (req : HttpRequest) (resp : HttpResponse)
      (out : Except (OrchestratorError String) String),
      (legal_phase_trace input req resp out).isSome = true) ∧
    noRequestCtx.enter_before_transmit_phase_checked = none := by
  refine ⟨?_, ?_, ?_, ?_, ?_, ?_, ?_, rfl⟩
  · intro ctx
    by_cases h : ctx.phase = .beforeSerialization <;>
      simp [InterceptorContext.enter_serialization_phase_checked, h]
  · intro ctx
    by_cases h : ctx.phase = .serialization ∧ ctx.input.isNone = true ∧
        ctx.request.isSome = true <;>
      simp [InterceptorContext.enter_before_transmit_phase_checked, h]
  · intro ctx
    by_cases h : ctx.phase = .beforeTransmit <;>
      simp [InterceptorContext.enter_transmit_phase_checked, h]
  · intro ctx
    by_cases h : ctx.phase = .transmit ∧ ctx.request.isNone = true ∧
        ctx.response.isSome = true <;>
      simp [InterceptorContext.enter_before_deserialization_phase_checked, h]
  · intro ctx
    by_cases h : ctx.phase = .beforeDeserialization <;>
      simp [InterceptorContext.enter_deserialization_phase_checked, h]
  · intro ctx
    by_cases h : ctx.phase = .deserialization ∧ ctx.output_or_error.isSome = true <;>
      simp [InterceptorContext.enter_after_deserialization_phase_checked, h]
  · intro input req resp out
    rfl

/-- Counterexample to C4 as stated: `request_checkpoint` is not written only
by the single `save_checkpoint` call before the attempt loop.  First,
`enter_before_transmit_phase` alone already stores a checkpoint (a context
that has only just entered before-transmit, with no `save_checkpoint` call,
carries `some req0`); second, a full operation invocation writes the
checkpoint twice, not once. -/
theorem c4_counterexample :
    ((((InterceptorContext.new "in" : Ctx).enter_serialization_phase
        |>.take_input).2.set_request req0).enter_before_transmit_phase
        |>.request_checkpoint) = some req0 ∧
    (checkpointWrites (invoke_with_stop_point okEnv .none 3 "in").trace).length
      = 2 := by
  refine ⟨?_, ?_⟩
  · decide
  · decide

/-- C4 (amended): during one operation invocation `request_checkpoint` is
written exactly twice — once by `enter_before_transmit_phase` upon entering
the before-transmit phase, and once by `save_checkpoint` immediately before
the first loop iteration (the next trace event is the first `rewind`); the
final write is a clone of the fully built, not-yet-signed request, and it is
the value still stored when the operation completes. -/
theorem c4_checkpoint_written_twice :
    checkpointWrites (invoke_with_stop_point okEnv .none 3 "in").trace
      = [.enterBeforeTransmit, .saveCheckpoint] ∧
    eventIndex (invoke_with_stop_point okEnv .none 3 "in").trace
        (.checkpointWritten .saveCheckpoint) + 1
      = eventIndex (invoke_with_stop_point okEnv .none 3 "in").trace
        (.rewound .unnecessary) ∧
    (invoke_with_stop_point okEnv .none 3 "in").ctx.request_checkpoint
      = some req0 := by
  refine ⟨?_, ?_, ?_⟩
  · decide
  · decide
  · decide

/-- C6: an attempt-level timeout is recorded on the context as the
distinguished timeout error and still reaches the per-iteration retry
decision — `should_attempt_retry` is consulted on the timed-out context (the
consultation event carries the timeout error), exactly as it is consulted on
a transport error (last conjunct); and a strategy that classifies the
timed-out context as retryable makes a second attempt happen, so the loop
does not abort unconditionally. -/
theorem c6_timeout_reaches_retry_decision :
    Event.retryConsulted 1 (some (.timeout "operation attempt timeout"))
      ∈ (invoke_with_stop_point timeoutNoRetryEnv .none 3 "in").trace ∧
    attemptsRecorded (invoke_with_stop_point timeoutNoRetryEnv .none 3 "in").trace
      = [1] ∧
    Event.attemptTimedOut 1
      ∈ (invoke_with_stop_point timeoutRetryEnv .none 3 "in").trace ∧
    attemptsRecorded (invoke_with_stop_point timeoutRetryEnv .none 3 "in").trace
      = [1, 2] ∧
    transportCalls (invoke_with_stop_point timeoutRetryEnv .none 3 "in").trace
      = 1 ∧
    Event.retryConsulted 1 (some (.connector "down"))
      ∈ (invoke_with_stop_point transportErrEnv .none 3 "in").trace := by
  refine ⟨?_, ?_, ?_, ?_, ?_, ?_⟩ <;> decide

/-- C7: with the never-retry strategy, exactly one attempt occurs regardless
of the transport outcome (success or transport error): the recorded attempt
numbers are exactly `[1]` (monotone from 1, one per loop iteration — a single
`rewind` call marks the single iteration), the shared `RequestAttempts` state
ends at 1, and the number of transport calls equals the one recorded
attempt. -/
theorem c7_never_retry_one_attempt (ok : Bool) :
    attemptsRecorded (invoke_with_stop_point
        (transportOutcomeEnv (transportOutcome ok)) .none 3 "in").trace = [1] ∧
    transportCalls (invoke_with_stop_point
        (transportOutcomeEnv (transportOutcome ok)) .none 3 "in").trace = 1 ∧
    rewindCalls (invoke_with_stop_point
        (transportOutcomeEnv (transportOutcome ok)) .none 3 "in").trace = 1 ∧
    (invoke_with_stop_point
        (transportOutcomeEnv (transportOutcome ok)) .none 3 "in").requestAttempts
      = some 1 := by
  cases ok <;> exact ⟨by decide, by decide, by decide, by decide⟩

/-- C9: with the stop point set to before-transmit, the attempt returns
before the transmit phase — the returned context has no response and no
transport call is made — yet both attempt-level finalizer hooks
(modify-before-attempt-completion, read-after-attempt) and both
operation-level finalizer hooks (modify-before-completion,
read-after-execution) still run. -/
theorem c9_stop_point_finalizers_still_run :
    (invoke_with_stop_point okEnv .beforeTransmit 3 "in").ctx.response = none ∧
    transportCalls (invoke_with_stop_point okEnv .beforeTransmit 3 "in").trace
      = 0 ∧
    hookRunCount (invoke_with_stop_point okEnv .beforeTransmit 3 "in").trace
      .modifyBeforeAttemptCompletion = 1 ∧
    hookRunCount (invoke_with_stop_point okEnv .beforeTransmit 3 "in").trace
      .readAfterAttempt = 1 ∧
    hookRunCount (invoke_with_stop_point okEnv .beforeTransmit 3 "in").trace
      .modifyBeforeCompletion = 1 ∧
    hookRunCount (invoke_with_stop_point okEnv .beforeTransmit 3 "in").trace
      .readAfterExecution = 1 := by
  refine ⟨?_, ?_, ?_, ?_, ?_, ?_⟩ <;> decide

/-- Counterexample to C2 as stated: when interceptor 1 of 3 at
modify-before-serialization fails, interceptors 2 and 3 at that same hook
point still run (the repository test `interceptor_error_handling_test`
asserts exactly this), and the context is marked failed with the LAST
failure at the hook point, not the first. -/
theorem c2_counterexample :
    Event.interceptorRan .modifyBeforeSerialization 1
      ∈ (invoke_with_stop_point (allFailEnv .modifyBeforeSerialization)
          .none 3 "in").trace ∧
    Event.interceptorRan .modifyBeforeSerialization 2
      ∈ (invoke_with_stop_point (allFailEnv .modifyBeforeSerialization)
          .none 3 "in").trace ∧
    ctxError (invoke_with_stop_point (allFailEnv .modifyBeforeSerialization)
        .none 3 "in").ctx = some (.interceptor "C") := by
  refine ⟨?_, ?_, ?_⟩ <;> decide

/-- C2 (amended): a failure by interceptor `k` of `n` at a main-pipeline hook
point does not stop interceptors `k+1..n` at that same point — the dispatcher
runs them all, an all-success list yields success, and the last failure wins
(so when `k` is the only failure, the context is marked failed with exactly
that error); the failed hook point halts the rest of the main pipeline, and
the applicable finalizer group still runs exactly once (for a pre-attempt
hook only the operation finalizers run; for an attempt-scope hook the attempt
finalizers run once as well). -/
theorem c2_hook_failure_halts_pipeline_not_siblings :
    (∀ rs : List (Except String Unit), (∀ r ∈ rs, r = .ok ()) →
      dispatch_hook rs = .ok ()) ∧
    (∀ (rs₁ rs₂ : List (Except String Unit)) (e : String),
      (∀ r ∈ rs₂, r = .ok ()) →
      dispatch_hook (rs₁ ++ .error e :: rs₂) = .error e) ∧
    (∀ h ∈ mainPipelineHooks, ∀ k ∈ [0, 1, 2], c2Holds h k) := by
  refine ⟨?_, ?_, ?_⟩
  · intro rs h
    exact dispatch_foldl_all_ok rs _ h
  · intro rs₁ rs₂ e h
    unfold dispatch_hook
    rw [List.foldl_append, List.foldl_cons]
    exact dispatch_foldl_all_ok rs₂ _ h
  · decide

/-- Witness for C2 (amended): the dispatcher facts at concrete interceptor
lists, and the pipeline behaviour with interceptor 2 of 3 failing at
modify-before-serialization. -/
theorem c2_hook_failure_witness :
    dispatch_hook [Except.ok (), Except.error "E1", Except.error "E2",
      Except.ok ()] = Except.error "E2" ∧
    dispatch_hook [Except.ok (), Except.ok ()] = Except.ok () ∧
    c2Holds .modifyBeforeSerialization 1 :=
  ⟨c2_hook_failure_halts_pipeline_not_siblings.2.1
      [Except.ok (), Except.error "E1"] [Except.ok ()] "E2" (by decide),
   c2_hook_failure_halts_pipeline_not_siblings.1
      [Except.ok (), Except.ok ()] (by decide),
   c2_hook_failure_halts_pipeline_not_siblings.2.2
      .modifyBeforeSerialization (by decide) 1 (by decide)⟩

/-- C3: a failure in any hook from read-before-execution through
modify-before-retry-loop (before any attempt starts) jumps straight to the
operation finalizers modify-before-completion / read-after-execution, each of
which runs exactly once, while the attempt-level finalizers
modify-before-attempt-completion / read-after-attempt never run: no loop
iteration begins (no `rewind` call, no recorded attempt) and no transport
call is made. -/
theorem c3_pre_attempt_failure_skips_attempt_finalizers :
    ∀ h ∈ preAttemptHooks,
      hookRunCount (invoke_with_stop_point (failHookEnv h) .none 3 "in").trace
        .modifyBeforeAttemptCompletion = 0 ∧
      hookRunCount (invoke_with_stop_point (failHookEnv h) .none 3 "in").trace
        .readAfterAttempt = 0 ∧
      hookRunCount (invoke_with_stop_point (failHookEnv h) .none 3 "in").trace
        .modifyBeforeCompletion = 1 ∧
      hookRunCount (invoke_with_stop_point (failHookEnv h) .none 3 "in").trace
        .readAfterExecution = 1 ∧
      transportCalls (invoke_with_stop_point (failHookEnv h) .none 3 "in").trace
        = 0 ∧
      rewindCalls (invoke_with_stop_point (failHookEnv h) .none 3 "in").trace
        = 0 ∧
      attemptsRecorded (invoke_with_stop_point (failHookEnv h) .none 3 "in").trace
        = [] := by
  decide

/-- Witness for C3 at the read-before-execution hook. -/
theorem c3_pre_attempt_failure_witness :
    hookRunCount (invoke_with_stop_point (failHookEnv .readBeforeExecution)
        .none 3 "in").trace .modifyBeforeAttemptCompletion = 0 ∧
    hookRunCount (invoke_with_stop_point (failHookEnv .readBeforeExecution)
        .none 3 "in").trace .readAfterAttempt = 0 ∧
    hookRunCount (invoke_with_stop_point (failHookEnv .readBeforeExecution)
        .none 3 "in").trace .modifyBeforeCompletion = 1 ∧
    hookRunCount (invoke_with_stop_point (failHookEnv .readBeforeExecution)
        .none 3 "in").trace .readAfterExecution = 1 ∧
    transportCalls (invoke_with_stop_point (failHookEnv .readBeforeExecution)
        .none 3 "in").trace = 0 ∧
    rewindCalls (invoke_with_stop_point (failHookEnv .readBeforeExecution)
        .none 3 "in").trace = 0 ∧
    attemptsRecorded (invoke_with_stop_point (failHookEnv .readBeforeExecution)
        .none 3 "in").trace = [] :=
  c3_pre_attempt_failure_skips_attempt_finalizers .readBeforeExecution
    (by decide)

end SmithyRs
